import Mathlib

/-!
Shallow embedding of the tunacode provider-abstraction layer:

* `src/tunacode/types/streaming.py` — stream events and the classification
  predicates `is_content_delta` / `is_tool_event`;
* `src/tunacode/types/usage.py` — `NormalizedUsage`, `_read_usage_value`,
  `normalize_request_usage`, `usage_from_dict`;
* `src/tunacode/core/agents/runner.py` — `NodeKind`, `ToolCallInfo`,
  `AgentNode` and its derived queries;
* `src/tunacode/tools/exceptions.py` — `ToolRetryError`.

Python dynamic values that flow through the usage normalizer are embedded as
the small inductive `PyValue` (ints, booleans, strings, None), with Python's
truthiness and `int(...)` coercion made explicit; a coercion failure (Python's
`ValueError`/`TypeError` raised by `int(...)`) is the explicit error value
`UsageError.invalidUsageData`, so fallible code returns `Except`.
-/

namespace TunaCode

/-- A Python value as it can appear in a usage attribute or mapping entry:
an integer, a boolean, a string, or `None`. -/
inductive PyValue : Type
  | vInt : Int → PyValue
  | vBool : Bool → PyValue
  | vStr : String → PyValue
  | vNone : PyValue
deriving DecidableEq, Repr

/-- Python truthiness for the embedded values: `0`, `False`, `""` and `None`
are falsy, everything else is truthy. -/
def pyTruthy : PyValue → Bool
  | .vInt n => n != 0
  | .vBool b => b
  | .vStr s => s != ""
  | .vNone => false

/-- Python `a or b`: `a` when `a` is truthy, else `b`. -/
def pyOr (a b : PyValue) : PyValue :=
  if pyTruthy a then a else b

/-- The numeric value of a list of decimal digit characters. -/
def digitsToNat (ds : List Char) : Nat :=
  ds.foldl (fun acc c => acc * 10 + (c.toNat - 48)) 0

/-- Python `int(s)` on a string: an optionally signed non-empty run of
decimal digits parses to its value, anything else raises (the modelled
subset of Python's grammar; surrounding whitespace and digit-group
underscores are not used by this code base). -/
def pyStrToInt (s : String) : Option Int :=
  match s.toList with
  | [] => none
  | '-' :: ds =>
      if ds ≠ [] ∧ ds.all Char.isDigit then some (-(digitsToNat ds : Int))
      else none
  | '+' :: ds =>
      if ds ≠ [] ∧ ds.all Char.isDigit then some ((digitsToNat ds : Int))
      else none
  | ds =>
      if ds.all Char.isDigit then some ((digitsToNat ds : Int))
      else none

/-- Python `int(v)` as a partial coercion: an int is itself, a boolean is
0 or 1, a string is parsed as a signed decimal integer, and `None` or an
unparsable string is not coercible. -/
def pyIntCoerce : PyValue → Option Int
  | .vInt n => some n
  | .vBool b => some (if b then 1 else 0)
  | .vStr s => pyStrToInt s
  | .vNone => none

/-- The error kind of the spec's taxonomy for a usage field that is present
but cannot be coerced to an integer (in the Python source this is the
`ValueError`/`TypeError` that `int(...)` raises, propagated to the caller). -/
inductive UsageError : Type
  | invalidUsageData : UsageError
deriving DecidableEq, Repr

/-- Python `int(v)` as a fallible computation: the coercion, or an
`invalidUsageData` failure surfaced to the caller. -/
def pyInt (v : PyValue) : Except UsageError Int :=
  match pyIntCoerce v with
  | some n => Except.ok n
  | none => Except.error UsageError.invalidUsageData

/-- A provider usage object, seen through `getattr`: a map from attribute
name to the attribute's value, `none` when the attribute is missing. -/
def UsageObj : Type := String → Option PyValue

/-- `USAGE_ATTR_REQUEST_TOKENS` from `usage.py`. -/
def USAGE_ATTR_REQUEST_TOKENS : String := "request_tokens"

/-- `USAGE_ATTR_RESPONSE_TOKENS` from `usage.py`. -/
def USAGE_ATTR_RESPONSE_TOKENS : String := "response_tokens"

/-- `USAGE_ATTR_CACHED_TOKENS` from `usage.py`. -/
def USAGE_ATTR_CACHED_TOKENS : String := "cached_tokens"

/-- `DEFAULT_TOKEN_COUNT` from `usage.py`. -/
def DEFAULT_TOKEN_COUNT : Int := 0

/-- `NormalizedUsage` from `usage.py`: a frozen dataclass with the three
token-count fields (Python ints, hence `Int`). -/
structure NormalizedUsage : Type where
  request_tokens : Int
  response_tokens : Int
  cached_tokens : Int
deriving DecidableEq, Repr

/-- The `total_tokens` property: `request_tokens + response_tokens`. -/
def NormalizedUsage.total_tokens (u : NormalizedUsage) : Int :=
  u.request_tokens + u.response_tokens

/-- `NormalizedUsage.to_dict`: the four-entry dict, in source order. -/
def NormalizedUsage.to_dict (u : NormalizedUsage) : List (String × PyValue) :=
  [("request_tokens", PyValue.vInt u.request_tokens),
   ("response_tokens", PyValue.vInt u.response_tokens),
   ("cached_tokens", PyValue.vInt u.cached_tokens),
   ("total_tokens", PyValue.vInt u.total_tokens)]

/-- `_read_usage_value(usage, attribute)`:
`int(getattr(usage, attribute, None) or DEFAULT_TOKEN_COUNT)`. A missing
attribute reads as `None`; a falsy value is replaced by the default 0 before
the `int(...)` coercion. -/
def read_usage_value (usage : UsageObj) (attr : String) :
    Except UsageError Int :=
  let raw_value := (usage attr).getD PyValue.vNone
  pyInt (pyOr raw_value (PyValue.vInt DEFAULT_TOKEN_COUNT))

/-- `normalize_request_usage(usage)`: `None` maps to `None`; otherwise the
three attributes are read with `_read_usage_value`. -/
def normalize_request_usage (usage : Option UsageObj) :
    Except UsageError (Option NormalizedUsage) :=
  match usage with
  | none => Except.ok none
  | some u => do
      let request_tokens ← read_usage_value u USAGE_ATTR_REQUEST_TOKENS
      let response_tokens ← read_usage_value u USAGE_ATTR_RESPONSE_TOKENS
      let cached_tokens ← read_usage_value u USAGE_ATTR_CACHED_TOKENS
      Except.ok (some { request_tokens := request_tokens,
                        response_tokens := response_tokens,
                        cached_tokens := cached_tokens })

/-- Python `data.get(key, default)` on a dict embedded as an association
list with distinct keys. -/
def dict_get (data : List (String × PyValue)) (key : String)
    (default : PyValue) : PyValue :=
  (data.lookup key).getD default

/-- `usage_from_dict(data)`: read each field with a naming-convention
fallback (`request_tokens`/`prompt_tokens`, `response_tokens`/
`completion_tokens`, `cached_tokens`), default 0, then coerce with
`int(...)`. -/
def usage_from_dict (data : List (String × PyValue)) :
    Except UsageError NormalizedUsage := do
  let request := dict_get data "request_tokens"
    (dict_get data "prompt_tokens" (PyValue.vInt 0))
  let response := dict_get data "response_tokens"
    (dict_get data "completion_tokens" (PyValue.vInt 0))
  let cached := dict_get data "cached_tokens" (PyValue.vInt 0)
  let request_tokens ← pyInt request
  let response_tokens ← pyInt response
  let cached_tokens ← pyInt cached
  Except.ok { request_tokens := request_tokens,
              response_tokens := response_tokens,
              cached_tokens := cached_tokens }

/-- `StreamEventKind` from `streaming.py`: the discriminator enum. -/
inductive StreamEventKind : Type
  | TEXT_DELTA
  | TOOL_CALL_DELTA
  | TOOL_CALL_START
  | TOOL_CALL_END
  | THOUGHT_DELTA
  | MESSAGE_START
  | MESSAGE_END
  | ERROR
deriving DecidableEq, Repr

/-- The string value of each `StreamEventKind` member. -/
def StreamEventKind.value : StreamEventKind → String
  | .TEXT_DELTA => "text-delta"
  | .TOOL_CALL_DELTA => "tool-call-delta"
  | .TOOL_CALL_START => "tool-call-start"
  | .TOOL_CALL_END => "tool-call-end"
  | .THOUGHT_DELTA => "thought-delta"
  | .MESSAGE_START => "message-start"
  | .MESSAGE_END => "message-end"
  | .ERROR => "error"

/-- The `StreamEvent` union of `streaming.py`: one constructor per dataclass
variant, each carrying the dataclass's payload fields and its `kind` field.
In the source `kind` is an ordinary constructor parameter with a default
value, so it is a free field here: nothing ties it to the variant. -/
inductive StreamEvent : Type
  | textDelta (content : String) (kind : StreamEventKind)
  | thoughtDelta (content : String) (kind : StreamEventKind)
  | toolCallStart (tool_call_id : String) (tool_name : String)
      (kind : StreamEventKind)
  | toolCallDelta (tool_call_id : String) (args_delta : String)
      (kind : StreamEventKind)
  | toolCallEnd (tool_call_id : String) (tool_name : String)
      (args : List (String × PyValue)) (kind : StreamEventKind)
  | messageStart (message_id : Option String) (kind : StreamEventKind)
  | messageEnd (message_id : Option String) (stop_reason : Option String)
      (kind : StreamEventKind)
  | streamError (error : String) (recoverable : Bool) (kind : StreamEventKind)
deriving DecidableEq, Repr

/-- The default `kind` each dataclass constructor supplies when the caller
omits it. -/
def StreamEvent.defaultKind : StreamEvent → StreamEventKind
  | .textDelta .. => StreamEventKind.TEXT_DELTA
  | .thoughtDelta .. => StreamEventKind.THOUGHT_DELTA
  | .toolCallStart .. => StreamEventKind.TOOL_CALL_START
  | .toolCallDelta .. => StreamEventKind.TOOL_CALL_DELTA
  | .toolCallEnd .. => StreamEventKind.TOOL_CALL_END
  | .messageStart .. => StreamEventKind.MESSAGE_START
  | .messageEnd .. => StreamEventKind.MESSAGE_END
  | .streamError .. => StreamEventKind.ERROR

/-- `is_content_delta(event)`: `isinstance(event, TextDelta | ThoughtDelta)`
— decided by the variant the event was constructed with, never by its
`kind` field. -/
def is_content_delta : StreamEvent → Bool
  | .textDelta .. => true
  | .thoughtDelta .. => true
  | _ => false

/-- `is_tool_event(event)`:
`isinstance(event, ToolCallStart | ToolCallDelta | ToolCallEnd)`. -/
def is_tool_event : StreamEvent → Bool
  | .toolCallStart .. => true
  | .toolCallDelta .. => true
  | .toolCallEnd .. => true
  | _ => false

/-- Statement helper for the spec's third bucket: the event was built by the
`MessageStart`, `MessageEnd` or `StreamError` constructor. -/
def isLifecycleOrError : StreamEvent → Bool
  | .messageStart .. => true
  | .messageEnd .. => true
  | .streamError .. => true
  | _ => false

/-- Statement helper: the event was built by the `TextDelta` or
`ThoughtDelta` constructor. -/
def isTextOrThought : StreamEvent → Bool
  | .textDelta .. => true
  | .thoughtDelta .. => true
  | _ => false

/-- Statement helper: the event was built by one of the three tool-call
constructors. -/
def isToolCallVariant : StreamEvent → Bool
  | .toolCallStart .. => true
  | .toolCallDelta .. => true
  | .toolCallEnd .. => true
  | _ => false

/-- `NodeKind.MODEL_REQUEST` from `runner.py`. -/
def NodeKind.MODEL_REQUEST : String := "model-request"

/-- `NodeKind.MODEL_RESPONSE` from `runner.py`. -/
def NodeKind.MODEL_RESPONSE : String := "model-response"

/-- `NodeKind.TOOL_CALL` from `runner.py`. -/
def NodeKind.TOOL_CALL : String := "tool-call"

/-- `NodeKind.TOOL_RETURN` from `runner.py`. -/
def NodeKind.TOOL_RETURN : String := "tool-return"

/-- `NodeKind.END` from `runner.py`. -/
def NodeKind.END : String := "end"

/-- `ToolCallInfo` from `runner.py`. -/
structure ToolCallInfo : Type where
  tool_call_id : String
  tool_name : String
  args : List (String × PyValue)
deriving DecidableEq, Repr

/-- `AgentNode` from `runner.py` (the opaque `raw` escape-hatch field holds
a backend-specific object this layer never inspects; it is embedded as an
uninterpreted `Option Unit` placeholder). -/
structure AgentNode : Type where
  kind : String
  content : String := ""
  tool_calls : List ToolCallInfo := []
  tool_returns : List (String × String) := []
  thought : Option String := none
  raw : Option Unit := none
deriving DecidableEq, Repr

/-- The `is_model_request` property: `kind == NodeKind.MODEL_REQUEST`. -/
def AgentNode.is_model_request (n : AgentNode) : Bool :=
  n.kind == NodeKind.MODEL_REQUEST

/-- The `is_end` property: `kind == NodeKind.END`. -/
def AgentNode.is_end (n : AgentNode) : Bool :=
  n.kind == NodeKind.END

/-- The `has_tool_calls` property: `bool(self.tool_calls)`, i.e. the list is
non-empty. -/
def AgentNode.has_tool_calls (n : AgentNode) : Bool :=
  !n.tool_calls.isEmpty

/-- Modelled from the spec: the base class `TunaCodeError` is defined in
`tunacode/exceptions.py`, which is not among the sources here. Per the
spec's error taxonomy it is a plain error kind with no behaviour of its
own, so the base constructor behaves as Python's `Exception.__init__`: it
stores the arguments it is handed in `args`. -/
structure TunaCodeError : Type where
  args : List String
deriving DecidableEq, Repr

/-- Modelled from the spec: Python's `str(...)` of a single-argument
exception is that argument. -/
def TunaCodeError.strForm (e : TunaCodeError) : String :=
  match e.args with
  | [a] => a
  | as => String.intercalate ", " as

/-- `ToolRetryError` from `tools/exceptions.py`: a `TunaCodeError` with a
`message` field. -/
structure ToolRetryError extends TunaCodeError : Type where
  message : String
deriving DecidableEq, Repr

/-- `ToolRetryError.__init__(message)`: stores `self.message = message` and
calls `super().__init__(message)`. -/
def ToolRetryError.init (message : String) : ToolRetryError :=
  { message := message, args := [message] }

/-! Helper lemmas shared by the usage-normalizer proofs. -/

/-- Reading back `pyInt`: it succeeds with `n` exactly when the coercion
yields `n`. -/
theorem pyInt_ok_iff (v : PyValue) (n : Int) :
    pyInt v = Except.ok n ↔ pyIntCoerce v = some n := by
  cases h : pyIntCoerce v <;> simp [pyInt, h]

/-- `UsageError` has a single inhabitant. -/
theorem UsageError.eq_invalid (e : UsageError) :
    e = UsageError.invalidUsageData := by
  cases e
  rfl

/-- Binding a failed `Except` computation keeps the failure. -/
theorem except_error_bind {α β : Type} (e : UsageError)
    (f : α → Except UsageError β) :
    (Except.error e >>= f) = Except.error e := rfl

/-- Binding a successful `Except` computation applies the continuation. -/
theorem except_ok_bind {α β : Type} (a : α) (f : α → Except UsageError β) :
    (Except.ok a >>= f) = f a := rfl

/-- Splitting a successful bind into its two successful stages. -/
theorem except_ok_of_bind {α β : Type} (x : Except UsageError α)
    (f : α → Except UsageError β) (b : β) (h : x >>= f = Except.ok b) :
    ∃ a, x = Except.ok a ∧ f a = Except.ok b := by
  cases x with
  | error e =>
      rw [except_error_bind] at h
      exact Except.noConfusion h
  | ok a => exact ⟨a, rfl, h⟩

/-- `_read_usage_value` on a missing or falsy attribute yields 0. -/
theorem read_usage_value_absent_or_falsy (u : UsageObj) (attr : String)
    (h : u attr = none ∨ ∃ v, u attr = some v ∧ pyTruthy v = false) :
    read_usage_value u attr = Except.ok 0 := by
  rcases h with h | ⟨v, hv, ht⟩
  · simp [read_usage_value, h, pyOr, pyTruthy, pyInt, pyIntCoerce,
      DEFAULT_TOKEN_COUNT]
  · simp [read_usage_value, hv, pyOr, ht, pyInt, pyIntCoerce,
      DEFAULT_TOKEN_COUNT]

/-- `_read_usage_value` on a present truthy attribute is `int(value)`. -/
theorem read_usage_value_truthy (u : UsageObj) (attr : String) (v : PyValue)
    (hv : u attr = some v) (ht : pyTruthy v = true) :
    read_usage_value u attr = pyInt v := by
  simp [read_usage_value, hv, pyOr, ht]

/-- Whatever `_read_usage_value` returns successfully is non-negative as
soon as every coercible attribute value of the object is non-negative. -/
theorem read_usage_value_nonneg (u : UsageObj) (attr : String) (n : Int)
    (hv : ∀ (v : PyValue) (m : Int),
      u attr = some v → pyIntCoerce v = some m → 0 ≤ m)
    (h : read_usage_value u attr = Except.ok n) : 0 ≤ n := by
  cases ha : u attr with
  | none =>
      rw [read_usage_value_absent_or_falsy u attr (Or.inl ha)] at h
      injection h with h
      omega
  | some v =>
      cases ht : pyTruthy v with
      | false =>
          rw [read_usage_value_absent_or_falsy u attr
            (Or.inr ⟨v, ha, ht⟩)] at h
          injection h with h
          omega
      | true =>
          rw [read_usage_value_truthy u attr v ha ht, pyInt_ok_iff] at h
          exact hv v n ha h

/-- Coercing the literal default 0 can only produce 0. -/
theorem vInt_zero_nonneg :
    ∀ m : Int, pyIntCoerce (PyValue.vInt 0) = some m → 0 ≤ m := by
  intro m h
  simp [pyIntCoerce] at h
  omega

/-- A successful `int(data.get(key, d))` is non-negative when every
coercible value stored in the mapping is non-negative and so is the
default. -/
theorem pyInt_dict_get_nonneg (data : List (String × PyValue)) (key : String)
    (d : PyValue) (n : Int)
    (hv : ∀ (k : String) (v : PyValue) (m : Int),
      data.lookup k = some v → pyIntCoerce v = some m → 0 ≤ m)
    (hd : ∀ m : Int, pyIntCoerce d = some m → 0 ≤ m)
    (h : pyInt (dict_get data key d) = Except.ok n) : 0 ≤ n := by
  rw [pyInt_ok_iff] at h
  unfold dict_get at h
  cases hk : data.lookup key with
  | none =>
      rw [hk] at h
      exact hd n h
  | some v =>
      rw [hk] at h
      exact hv key v n hk h

/-- Non-negativity of `normalize_request_usage` outputs, given non-negative
coercible inputs (the object path of the amended claim C8). -/
theorem normalize_nonneg (u : UsageObj) (r : NormalizedUsage)
    (hv : ∀ (a : String) (v : PyValue) (m : Int),
      u a = some v → pyIntCoerce v = some m → 0 ≤ m)
    (h : normalize_request_usage (some u) = Except.ok (some r)) :
    0 ≤ r.request_tokens ∧ 0 ≤ r.response_tokens ∧ 0 ≤ r.cached_tokens := by
  simp only [normalize_request_usage] at h
  obtain ⟨a, ha, h⟩ := except_ok_of_bind _ _ _ h
  obtain ⟨b, hb, h⟩ := except_ok_of_bind _ _ _ h
  obtain ⟨c, hcv, h⟩ := except_ok_of_bind _ _ _ h
  injection h with h
  injection h with h
  subst h
  refine ⟨?_, ?_, ?_⟩
  · exact read_usage_value_nonneg u USAGE_ATTR_REQUEST_TOKENS a
      (fun v m h1 h2 => hv _ v m h1 h2) ha
  · exact read_usage_value_nonneg u USAGE_ATTR_RESPONSE_TOKENS b
      (fun v m h1 h2 => hv _ v m h1 h2) hb
  · exact read_usage_value_nonneg u USAGE_ATTR_CACHED_TOKENS c
      (fun v m h1 h2 => hv _ v m h1 h2) hcv

/-- Non-negativity of `usage_from_dict` outputs, given non-negative
coercible inputs (the mapping path of the amended claim C8). -/
theorem from_dict_nonneg (data : List (String × PyValue))
    (r : NormalizedUsage)
    (hv : ∀ (k : String) (v : PyValue) (m : Int),
      data.lookup k = some v → pyIntCoerce v = some m → 0 ≤ m)
    (h : usage_from_dict data = Except.ok r) :
    0 ≤ r.request_tokens ∧ 0 ≤ r.response_tokens ∧ 0 ≤ r.cached_tokens := by
  have hfall : ∀ (k : String) (m : Int),
      pyIntCoerce (dict_get data k (PyValue.vInt 0)) = some m → 0 ≤ m := by
    intro k m hm
    exact pyInt_dict_get_nonneg data k (PyValue.vInt 0) m hv vInt_zero_nonneg
      (by rw [pyInt_ok_iff]; exact hm)
  simp only [usage_from_dict] at h
  obtain ⟨a, ha, h⟩ := except_ok_of_bind _ _ _ h
  obtain ⟨b, hb, h⟩ := except_ok_of_bind _ _ _ h
  obtain ⟨c, hcv, h⟩ := except_ok_of_bind _ _ _ h
  injection h with h
  subst h
  refine ⟨?_, ?_, ?_⟩
  · exact pyInt_dict_get_nonneg data "request_tokens"
      (dict_get data "prompt_tokens" (PyValue.vInt 0)) a hv
      (hfall "prompt_tokens") ha
  · exact pyInt_dict_get_nonneg data "response_tokens"
      (dict_get data "completion_tokens" (PyValue.vInt 0)) b hv
      (hfall "completion_tokens") hb
  · exact pyInt_dict_get_nonneg data "cached_tokens" (PyValue.vInt 0) c hv
      vInt_zero_nonneg hcv

/-! Claim theorems. -/

/-- Claim C1: `is_content_delta` holds exactly for the `TextDelta` and
`ThoughtDelta` variants, `is_tool_event` exactly for the three tool-call
variants, and every `StreamEvent` falls in exactly one of the three
buckets: content delta, tool event, or one of `MessageStart`, `MessageEnd`,
`StreamError` with both predicates false — a partition with no overlap and
no gap. -/
theorem stream_event_partition (e : StreamEvent) :
    (is_content_delta e = isTextOrThought e)
  ∧ (is_tool_event e = isToolCallVariant e)
  ∧ (((is_content_delta e && !is_tool_event e && !isLifecycleOrError e)
      || (!is_content_delta e && is_tool_event e && !isLifecycleOrError e)
      || (!is_content_delta e && !is_tool_event e && isLifecycleOrError e))
      = true) := by
  cases e <;> exact ⟨rfl, rfl, rfl⟩

/-- Claim C2: for every `NormalizedUsage`, `total_tokens` equals
`request_tokens + response_tokens`, and changing only `cached_tokens`
never changes `total_tokens`. -/
theorem total_tokens_eq (u : NormalizedUsage) :
    u.total_tokens = u.request_tokens + u.response_tokens
  ∧ (∀ r s c c' : Int,
      (NormalizedUsage.mk r s c).total_tokens
        = (NormalizedUsage.mk r s c').total_tokens) :=
  ⟨rfl, fun _ _ _ _ => rfl⟩

/-- Claim C3: `normalize_request_usage` maps `None` to `None` (never to a
zeroed record); on any non-`None` object each of the three attributes that
is missing or falsy contributes 0, so an object with none of the three
attributes yields exactly `NormalizedUsage(0, 0, 0)`. -/
theorem normalize_request_usage_defaults :
    normalize_request_usage none = Except.ok none
  ∧ (∀ (u : UsageObj) (attr : String),
      (u attr = none ∨ ∃ v, u attr = some v ∧ pyTruthy v = false) →
      read_usage_value u attr = Except.ok 0)
  ∧ (∀ u : UsageObj,
      u USAGE_ATTR_REQUEST_TOKENS = none →
      u USAGE_ATTR_RESPONSE_TOKENS = none →
      u USAGE_ATTR_CACHED_TOKENS = none →
      normalize_request_usage (some u)
        = Except.ok (some (NormalizedUsage.mk 0 0 0))) := by
  refine ⟨rfl, read_usage_value_absent_or_falsy, ?_⟩
  intro u h1 h2 h3
  have r1 := read_usage_value_absent_or_falsy u USAGE_ATTR_REQUEST_TOKENS
    (Or.inl h1)
  have r2 := read_usage_value_absent_or_falsy u USAGE_ATTR_RESPONSE_TOKENS
    (Or.inl h2)
  have r3 := read_usage_value_absent_or_falsy u USAGE_ATTR_CACHED_TOKENS
    (Or.inl h3)
  simp only [normalize_request_usage, r1, r2, r3, except_ok_bind]

/-- Witness for claim C3: the object with no attributes at all normalizes
to the all-zero record. -/
theorem normalize_request_usage_defaults_witness :
    normalize_request_usage (some (fun _ => none))
      = Except.ok (some (NormalizedUsage.mk 0 0 0)) :=
  normalize_request_usage_defaults.2.2 (fun _ => none) rfl rfl rfl

/-- Claim C4: a present, truthy, non-coercible value for a token field makes
the normalizer fail with the `invalidUsageData` error kind, surfaced to the
caller, on the attribute path; and a present non-coercible value under any
of the three canonical keys makes `usage_from_dict` fail the same way —
the value is never silently replaced by 0. -/
theorem invalid_usage_fails :
    (∀ (u : UsageObj) (attr : String) (v : PyValue),
      u attr = some v → pyTruthy v = true → pyIntCoerce v = none →
      read_usage_value u attr = Except.error UsageError.invalidUsageData)
  ∧ (∀ (data : List (String × PyValue)) (v : PyValue),
      data.lookup "request_tokens" = some v → pyIntCoerce v = none →
      usage_from_dict data = Except.error UsageError.invalidUsageData)
  ∧ (∀ (data : List (String × PyValue)) (v : PyValue),
      data.lookup "response_tokens" = some v → pyIntCoerce v = none →
      usage_from_dict data = Except.error UsageError.invalidUsageData)
  ∧ (∀ (data : List (String × PyValue)) (v : PyValue),
      data.lookup "cached_tokens" = some v → pyIntCoerce v = none →
      usage_from_dict data = Except.error UsageError.invalidUsageData) := by
  refine ⟨?_, ?_, ?_, ?_⟩
  · intro u attr v hv ht hc
    rw [read_usage_value_truthy u attr v hv ht]
    simp [pyInt, hc]
  · intro data v hl hc
    have hreq : dict_get data "request_tokens"
        (dict_get data "prompt_tokens" (PyValue.vInt 0)) = v := by
      simp [dict_get, hl]
    simp only [usage_from_dict, hreq]
    simp [pyInt, hc, except_error_bind]
  · intro data v hl hc
    have hresp : dict_get data "response_tokens"
        (dict_get data "completion_tokens" (PyValue.vInt 0)) = v := by
      simp [dict_get, hl]
    simp only [usage_from_dict, hresp]
    cases hreq : pyInt (dict_get data "request_tokens"
        (dict_get data "prompt_tokens" (PyValue.vInt 0))) with
    | error e =>
        cases e
        simp [except_error_bind]
    | ok a =>
        simp only [except_ok_bind]
        simp [pyInt, hc, except_error_bind]
  · intro data v hl hc
    have hcch : dict_get data "cached_tokens" (PyValue.vInt 0) = v := by
      simp [dict_get, hl]
    simp only [usage_from_dict, hcch]
    cases hreq : pyInt (dict_get data "request_tokens"
        (dict_get data "prompt_tokens" (PyValue.vInt 0))) with
    | error e =>
        cases e
        simp [except_error_bind]
    | ok a =>
        simp only [except_ok_bind]
        cases hresp : pyInt (dict_get data "response_tokens"
            (dict_get data "completion_tokens" (PyValue.vInt 0))) with
        | error e =>
            cases e
            simp [except_error_bind]
        | ok b =>
            simp only [except_ok_bind]
            simp [pyInt, hc, except_error_bind]

/-- Witness for claim C4: an object whose every attribute is the
non-numeric string "not a number" makes the reader fail with
`invalidUsageData`. -/
theorem invalid_usage_fails_witness :
    read_usage_value (fun _ => some (PyValue.vStr "not a number"))
      "request_tokens" = Except.error UsageError.invalidUsageData :=
  invalid_usage_fails.1 (fun _ => some (PyValue.vStr "not a number"))
    "request_tokens" (PyValue.vStr "not a number") rfl (by decide) (by decide)

/-- Claim C5: `usage_from_dict` reads the canonical keys first and falls
back to `prompt_tokens` / `completion_tokens` only when the canonical keys
are absent; the two five-and-seven mappings of the claim are equal and
both yield `NormalizedUsage(5, 7, 0)`. -/
theorem usage_from_dict_key_fallback :
    usage_from_dict
        [("prompt_tokens", PyValue.vInt 5), ("completion_tokens", PyValue.vInt 7)]
      = usage_from_dict
        [("request_tokens", PyValue.vInt 5), ("response_tokens", PyValue.vInt 7)]
  ∧ usage_from_dict
        [("prompt_tokens", PyValue.vInt 5), ("completion_tokens", PyValue.vInt 7)]
      = Except.ok (NormalizedUsage.mk 5 7 0)
  ∧ (∀ (data : List (String × PyValue)) (v : PyValue),
      data.lookup "request_tokens" = some v →
      dict_get data "request_tokens"
        (dict_get data "prompt_tokens" (PyValue.vInt 0)) = v)
  ∧ (∀ (data : List (String × PyValue)) (v : PyValue),
      data.lookup "response_tokens" = some v →
      dict_get data "response_tokens"
        (dict_get data "completion_tokens" (PyValue.vInt 0)) = v)
  ∧ (∀ data : List (String × PyValue),
      data.lookup "request_tokens" = none →
      dict_get data "request_tokens"
        (dict_get data "prompt_tokens" (PyValue.vInt 0))
        = dict_get data "prompt_tokens" (PyValue.vInt 0)) := by
  refine ⟨rfl, rfl, ?_, ?_, ?_⟩
  · intro data v h
    simp [dict_get, h]
  · intro data v h
    simp [dict_get, h]
  · intro data h
    simp [dict_get, h]

/-- Witness for claim C5: a canonical `request_tokens` entry wins over a
`prompt_tokens` entry present in the same mapping. -/
theorem usage_from_dict_key_fallback_witness :
    dict_get [("request_tokens", PyValue.vInt 9),
        ("prompt_tokens", PyValue.vInt 1)] "request_tokens"
      (dict_get [("request_tokens", PyValue.vInt 9),
        ("prompt_tokens", PyValue.vInt 1)] "prompt_tokens" (PyValue.vInt 0))
      = PyValue.vInt 9 :=
  usage_from_dict_key_fallback.2.2.1
    [("request_tokens", PyValue.vInt 9), ("prompt_tokens", PyValue.vInt 1)]
    (PyValue.vInt 9) rfl

/-- Claim C6: round-trip — for every `NormalizedUsage` with non-negative
fields, `usage_from_dict (u.to_dict)` is exactly `u`; and the
`total_tokens` entry of an input mapping is never consulted, so the result
is unchanged by any stored `total_tokens` value. -/
theorem usage_round_trip :
    (∀ u : NormalizedUsage,
      0 ≤ u.request_tokens → 0 ≤ u.response_tokens → 0 ≤ u.cached_tokens →
      usage_from_dict u.to_dict = Except.ok u)
  ∧ (∀ (data : List (String × PyValue)) (v : PyValue),
      usage_from_dict (("total_tokens", v) :: data) = usage_from_dict data) := by
  constructor
  · intro u _ _ _
    cases u
    rfl
  · intro data v
    rfl

/-- Witness for claim C6: the record (1, 2, 3) survives the round trip. -/
theorem usage_round_trip_witness :
    usage_from_dict (NormalizedUsage.mk 1 2 3).to_dict
      = Except.ok (NormalizedUsage.mk 1 2 3) :=
  usage_round_trip.1 (NormalizedUsage.mk 1 2 3)
    (by decide) (by decide) (by decide)

/-- Claim C7: on every `AgentNode`, `is_model_request` holds exactly when
`kind` is `model-request`, `is_end` exactly when `kind` is `end` (so a node
of kind `end` has `is_end` true and `is_model_request` false), and
`has_tool_calls` exactly when `tool_calls` is non-empty — regardless of the
other fields. -/
theorem agent_node_queries (n : AgentNode) :
    (n.is_model_request = true ↔ n.kind = NodeKind.MODEL_REQUEST)
  ∧ (n.is_end = true ↔ n.kind = NodeKind.END)
  ∧ (n.kind = NodeKind.END →
      n.is_end = true ∧ n.is_model_request = false)
  ∧ (n.has_tool_calls = true ↔ n.tool_calls ≠ []) := by
  refine ⟨?_, ?_, ?_, ?_⟩
  · simp [AgentNode.is_model_request]
  · simp [AgentNode.is_end]
  · intro h
    constructor
    · simp [AgentNode.is_end, h]
    · simp [AgentNode.is_model_request, h, NodeKind.END,
        NodeKind.MODEL_REQUEST]
  · simp [AgentNode.has_tool_calls]

/-- Witness for claim C7: a node of kind `end` (all other fields default)
has `is_end` true and `is_model_request` false. -/
theorem agent_node_queries_witness :
    ({ kind := NodeKind.END } : AgentNode).is_end = true
  ∧ ({ kind := NodeKind.END } : AgentNode).is_model_request = false :=
  (agent_node_queries { kind := NodeKind.END }).2.2.1 rfl

/-- Claim C8 counterexample: the claim that every record produced by the
two construction paths has non-negative fields is false — a mapping or
object carrying a negative count is passed through unchanged. -/
theorem usage_nonneg_counterexample :
    usage_from_dict [("request_tokens", PyValue.vInt (-5))]
      = Except.ok (NormalizedUsage.mk (-5) 0 0)
  ∧ normalize_request_usage
      (some (fun a => if a = "request_tokens"
        then some (PyValue.vInt (-5)) else none))
      = Except.ok (some (NormalizedUsage.mk (-5) 0 0))
  ∧ (NormalizedUsage.mk (-5) 0 0).request_tokens < 0 :=
  ⟨rfl, rfl, by decide⟩

/-- Claim C8 as amended: every `NormalizedUsage` produced by either
construction path has non-negative fields, provided every present input
value that coerces to an integer coerces to a non-negative one (absent and
falsy fields contribute the non-negative default 0). -/
theorem usage_nonneg_of_nonneg_inputs :
    (∀ (u : UsageObj) (r : NormalizedUsage),
      (∀ (a : String) (v : PyValue) (m : Int),
        u a = some v → pyIntCoerce v = some m → 0 ≤ m) →
      normalize_request_usage (some u) = Except.ok (some r) →
      0 ≤ r.request_tokens ∧ 0 ≤ r.response_tokens ∧ 0 ≤ r.cached_tokens)
  ∧ (∀ (data : List (String × PyValue)) (r : NormalizedUsage),
      (∀ (k : String) (v : PyValue) (m : Int),
        data.lookup k = some v → pyIntCoerce v = some m → 0 ≤ m) →
      usage_from_dict data = Except.ok r →
      0 ≤ r.request_tokens ∧ 0 ≤ r.response_tokens ∧ 0 ≤ r.cached_tokens) :=
  ⟨normalize_nonneg, from_dict_nonneg⟩

/-- Witness for the amended claim C8: the empty object yields the all-zero,
hence non-negative, record. -/
theorem usage_nonneg_of_nonneg_inputs_witness :
    0 ≤ (NormalizedUsage.mk 0 0 0).request_tokens
  ∧ 0 ≤ (NormalizedUsage.mk 0 0 0).response_tokens
  ∧ 0 ≤ (NormalizedUsage.mk 0 0 0).cached_tokens :=
  usage_nonneg_of_nonneg_inputs.1 (fun _ => none) (NormalizedUsage.mk 0 0 0)
    (fun _ _ _ h1 _ => nomatch h1) rfl

/-- Claim C9: `ToolRetryError(m)` stores exactly `m` in its `message`
field, hands exactly `m` (and nothing else) to the base exception
constructor, and its string form is exactly `m`. -/
theorem tool_retry_error_message (m : String) :
    (ToolRetryError.init m).message = m
  ∧ (ToolRetryError.init m).args = [m]
  ∧ (ToolRetryError.init m).toTunaCodeError.strForm = m :=
  ⟨rfl, rfl, rfl⟩

/-- Claim C10: the classification predicates decide by the variant
constructor alone and never consult the stored `kind` field — a
`TextDelta` carrying any `kind` whatsoever (for example
`StreamEventKind.ERROR`) satisfies `is_content_delta` and not
`is_tool_event`. -/
theorem text_delta_classified_by_variant (content : String)
    (kind : StreamEventKind) :
    is_content_delta (StreamEvent.textDelta content kind) = true
  ∧ is_tool_event (StreamEvent.textDelta content kind) = false
  ∧ is_content_delta (StreamEvent.textDelta content StreamEventKind.ERROR)
      = true
  ∧ is_tool_event (StreamEvent.textDelta content StreamEventKind.ERROR)
      = false :=
  ⟨rfl, rfl, rfl, rfl⟩

end TunaCode
